import Mathlib

/-
Shallow embedding of `src/main.rs` of a small Bitcoin block-explorer HTTP
gateway (actix-web handlers over a JSON-RPC client), together with proofs of
the specified properties.

Modelling conventions:
* JSON values (`serde_json::Value`) are the inductive `Json`; numbers are
  modelled as integers (no property here depends on non-integral numbers).
* The network environment is an oracle `RpcEnv` mapping each issued RPC call
  (method name plus ordered parameter list) to the node-side outcome
  `NodeReply`; the reply already carries the outcome of reading and parsing
  the response body, so each constructor corresponds to exactly one branch of
  `make_rpc_call`.
* Handlers additionally return the ordered list of RPC calls they issued, so
  that call-count properties ("zero RPC calls", "exactly one POST") are
  expressible.
* Rust `i64` arithmetic is `Int` with two's-complement wrapping (`wrapI64`)
  at the points where the source performs `i64` subtraction.
* The `.unwrap()` panic in `get_latest_blocks` is modelled by the explicit
  outcome `HandlerOutcome.panicked`.
-/

/-- JSON values, mirroring `serde_json::Value`. Numbers are modelled as
integers. -/
inductive Json where
  | null : Json
  | bool (b : Bool) : Json
  | num (n : Int) : Json
  | str (s : String) : Json
  | arr (xs : List Json) : Json
  | obj (fields : List (String × Json)) : Json
deriving Repr

/-- Rendering of one character inside Rust's `Debug` output for a string
(quote and backslash are escaped; other characters are kept literally). -/
def rustDebugChar (c : Char) : String :=
  if c = '"' then "\\\"" else if c = '\\' then "\\\\" else String.mk [c]

/-- Rust `Debug` rendering of a string: surrounding quotes plus escaping. -/
def rustDebugStr (s : String) : String :=
  "\"" ++ String.join (s.data.map rustDebugChar) ++ "\""

mutual

/-- Models `format!("\x7b:?\x7d", v)` for `v : serde_json::Value`, i.e. the
`Debug` rendering used at line 112 of `src/main.rs` to derive the error
message from the JSON-RPC `error` field. -/
def jsonDebug : Json → String
  | Json.null => "Null"
  | Json.bool b => "Bool(" ++ (if b then "true" else "false") ++ ")"
  | Json.num n => "Number(" ++ toString n ++ ")"
  | Json.str s => "String(" ++ rustDebugStr s ++ ")"
  | Json.arr xs => "Array [" ++ jsonDebugList xs ++ "]"
  | Json.obj fs => "Object \x7b" ++ jsonDebugFields fs ++ "\x7d"

/-- Comma-separated `Debug` rendering of a JSON array's elements. -/
def jsonDebugList : List Json → String
  | [] => ""
  | [x] => jsonDebug x
  | x :: y :: xs => jsonDebug x ++ ", " ++ jsonDebugList (y :: xs)

/-- Comma-separated `Debug` rendering of a JSON object's fields. -/
def jsonDebugFields : List (String × Json) → String
  | [] => ""
  | [(k, v)] => rustDebugStr k ++ ": " ++ jsonDebug v
  | (k, v) :: y :: xs => rustDebugStr k ++ ": " ++ jsonDebug v ++ ", " ++ jsonDebugFields (y :: xs)

end

/-- `RpcConfig` from `src/main.rs` (endpoint URL and Basic credentials). -/
structure RpcConfig where
  url : String
  user : String
  pass : String
deriving Repr

/-- `RpcRequest` from `src/main.rs`: the JSON-RPC envelope serialized as the
POST body. -/
structure RpcRequest where
  jsonrpc : String
  id : String
  method : String
  params : List Json
deriving Repr

/-- `RpcResponse` from `src/main.rs`: the parsed node reply with optional
`result` and `error` fields. -/
structure RpcResponse where
  result : Option Json
  error : Option Json
deriving Repr

/-- One HTTP POST issued by the RPC client: target URL, Basic-auth
credentials, and the serialized envelope. -/
structure HttpPost where
  url : String
  basicUser : String
  basicPass : String
  body : RpcRequest
deriving Repr

/-- Outcome of reading (`response.text()`) and then parsing
(`serde_json::from_str::<RpcResponse>`) the response body, as observed by
`make_rpc_call` on the 200 path. -/
inductive BodyOutcome where
  | readError (detail : String) : BodyOutcome
  | text (parsed : Except String RpcResponse) : BodyOutcome

/-- Node-side outcome of one HTTP POST: either the send itself fails
(`reqwest` transport error) or a response with a status code and a body
arrives. -/
inductive NodeReply where
  | sendError (detail : String) : NodeReply
  | reply (status : Nat) (body : BodyOutcome) : NodeReply

/-- Lines 105–117 of `src/main.rs`: resolve a parsed `RpcResponse` into the
client's return value. `result` takes precedence; with `result` absent the
message is the `Debug` rendering of `error`, or `"Unknown error"` when
`error` is absent too. -/
def handleParsedResponse (rpc_response : RpcResponse) : Except String Json :=
  match rpc_response.result with
  | some result => Except.ok result
  | none =>
    let error_msg :=
      match rpc_response.error with
      | some e => jsonDebug e
      | none => "Unknown error"
    Except.error error_msg

/-- `make_rpc_call` from `src/main.rs` (lines 54–118): builds the envelope,
issues a single POST, and normalizes the outcome. The second component is
the list of POSTs performed (always exactly one). -/
def make_rpc_call (method : String) (params : List Json) (config : RpcConfig)
    (reply : NodeReply) : Except String Json × List HttpPost :=
  let rpc_request : RpcRequest :=
    { jsonrpc := "2.0", id := "1", method := method, params := params }
  let post : HttpPost :=
    { url := config.url, basicUser := config.user, basicPass := config.pass,
      body := rpc_request }
  match reply with
  | NodeReply.sendError e =>
      (Except.error ("RPC connection error: " ++ e), [post])
  | NodeReply.reply status body =>
      if status ≠ 200 then
        (Except.error ("RPC server error. Status: " ++ toString status), [post])
      else
        match body with
        | BodyOutcome.readError e =>
            (Except.error ("Failed to read RPC response: " ++ e), [post])
        | BodyOutcome.text (Except.error e) =>
            (Except.error ("Failed to parse RPC response: " ++ e), [post])
        | BodyOutcome.text (Except.ok rpc_response) =>
            (handleParsedResponse rpc_response, [post])

/-- One RPC invocation as observed at the client boundary: method name and
ordered parameter list. -/
structure RpcCall where
  method : String
  params : List Json
deriving Repr

/-- The network environment: what the node does for each issued call. -/
abbrev RpcEnv := RpcCall → NodeReply

/-- Hexadecimal digit (both cases), as accepted by
`bitcoin::BlockHash::from_str`. -/
def isHexChar (c : Char) : Bool :=
  c.isDigit || ('a' ≤ c && c ≤ 'f') || ('A' ≤ c && c ≤ 'F')

/-- Lowercasing of a hex string, character by character. -/
def lowerHex (s : String) : String := String.mk (s.data.map Char.toLower)

/-- Models `BlockHash::from_str(s)` combined with the later
`hash.to_string()`: the parse succeeds exactly when `s` is 64 hex characters
(either case), and the canonical rendering of the parsed hash is the
lowercased input (display reverses the byte order that parsing reversed, so
the round trip is lowercasing). -/
def blockHashFromStr (s : String) : Option String :=
  if s.length == 64 && s.data.all isHexChar then some (lowerHex s) else none

/-- HTTP responses produced by the handlers. -/
inductive HttpResponse where
  | ok (body : Json) : HttpResponse
  | badRequest (body : String) : HttpResponse
  | internalServerError (body : String) : HttpResponse
deriving Repr

/-- Handler outcome: a response, or a Rust panic (an `.unwrap()` failure). -/
inductive HandlerOutcome where
  | resp (r : HttpResponse) : HandlerOutcome
  | panicked : HandlerOutcome
deriving Repr

/-- `get_block_info` from `src/main.rs` (lines 120–130), instrumented with
the list of RPC calls issued. -/
def get_block_info (config : RpcConfig) (env : RpcEnv) (block_hash : String) :
    HttpResponse × List RpcCall :=
  match blockHashFromStr block_hash with
  | none => (HttpResponse.badRequest "Invalid block hash", [])
  | some hash =>
    (match (make_rpc_call "getblock" [Json.str hash] config
        (env { method := "getblock", params := [Json.str hash] })).1 with
     | Except.ok block_info => HttpResponse.ok block_info
     | Except.error _ =>
        HttpResponse.internalServerError "Failed to retrieve block information",
     [{ method := "getblock", params := [Json.str hash] }])

/-- `get_transaction_info` from `src/main.rs` (lines 132–137), instrumented
with the list of RPC calls issued. -/
def get_transaction_info (config : RpcConfig) (env : RpcEnv) (tx_id : String) :
    HttpResponse × List RpcCall :=
  (match (make_rpc_call "getrawtransaction" [Json.str tx_id, Json.bool true] config
      (env { method := "getrawtransaction", params := [Json.str tx_id, Json.bool true] })).1 with
   | Except.ok tx_info => HttpResponse.ok tx_info
   | Except.error _ =>
      HttpResponse.internalServerError "Failed to retrieve transaction information",
   [{ method := "getrawtransaction", params := [Json.str tx_id, Json.bool true] }])

/-- Two's-complement wrap into the `i64` range, used where the source
subtracts `i64` values. -/
def wrapI64 (x : Int) : Int := (x + 2 ^ 63) % 2 ^ 64 - 2 ^ 63

/-- Models `serde_json::from_value::<i64>`: succeeds exactly on integer JSON
numbers within the `i64` range. -/
def fromValueI64 (v : Json) : Option Int :=
  match v with
  | Json.num n => if -(2 ^ 63) ≤ n ∧ n < 2 ^ 63 then some n else none
  | _ => none

/-- The per-index body of the `for i in 0..10` loop of `get_latest_blocks`
(lines 145–151), iterated over the remaining indices; accumulates fetched
block details and the issued calls in order. -/
def get_latest_blocks_loop (config : RpcConfig) (env : RpcEnv) (block_count : Int) :
    List Int → List Json → List RpcCall → List Json × List RpcCall
  | [], latest_blocks, log => (latest_blocks, log)
  | i :: rest, latest_blocks, log =>
    match (make_rpc_call "getblockhash" [Json.num (wrapI64 (block_count - i))] config
        (env { method := "getblockhash", params := [Json.num (wrapI64 (block_count - i))] })).1 with
    | Except.error _ =>
        get_latest_blocks_loop config env block_count rest latest_blocks
          (log ++ [{ method := "getblockhash", params := [Json.num (wrapI64 (block_count - i))] }])
    | Except.ok block_hash =>
        match (make_rpc_call "getblock" [block_hash] config
            (env { method := "getblock", params := [block_hash] })).1 with
        | Except.error _ =>
            get_latest_blocks_loop config env block_count rest latest_blocks
              (log ++ [{ method := "getblockhash", params := [Json.num (wrapI64 (block_count - i))] },
                       { method := "getblock", params := [block_hash] }])
        | Except.ok block_info =>
            get_latest_blocks_loop config env block_count rest (latest_blocks ++ [block_info])
              (log ++ [{ method := "getblockhash", params := [Json.num (wrapI64 (block_count - i))] },
                       { method := "getblock", params := [block_hash] }])

/-- The `getblockcount` call issued first by `get_latest_blocks`. -/
def countCall : RpcCall := { method := "getblockcount", params := [] }

/-- The ten loop indices `0..10` of `get_latest_blocks`, as `i64` values. -/
def targetIndices : List Int := (List.range 10).map Int.ofNat

/-- `get_latest_blocks` from `src/main.rs` (lines 139–157), instrumented
with the list of RPC calls issued. The `.unwrap()` on
`serde_json::from_value::<i64>` at line 142 is modelled by `panicked`. -/
def get_latest_blocks (config : RpcConfig) (env : RpcEnv) :
    HandlerOutcome × List RpcCall :=
  match (make_rpc_call "getblockcount" [] config (env countCall)).1 with
  | Except.error _ =>
      (HandlerOutcome.resp
        (HttpResponse.internalServerError "Failed to retrieve latest blocks"),
       [countCall])
  | Except.ok block_count_value =>
    match fromValueI64 block_count_value with
    | none => (HandlerOutcome.panicked, [countCall])
    | some block_count =>
      let r := get_latest_blocks_loop config env block_count targetIndices [] [countCall]
      (HandlerOutcome.resp (HttpResponse.ok (Json.arr r.1)), r.2)

/-- The `getblockhash` call for loop index `i` under block count
`block_count`. -/
def hashCallAt (block_count : Int) (i : Int) : RpcCall :=
  { method := "getblockhash", params := [Json.num (wrapI64 (block_count - i))] }

/-- The entry contributed by loop index `i`: `none` when `getblockhash` or
`getblock` fails there, otherwise the fetched block detail. -/
def fetchIndex (config : RpcConfig) (env : RpcEnv) (block_count : Int) (i : Int) :
    Option Json :=
  match (make_rpc_call "getblockhash" [Json.num (wrapI64 (block_count - i))] config
      (env { method := "getblockhash", params := [Json.num (wrapI64 (block_count - i))] })).1 with
  | Except.error _ => none
  | Except.ok block_hash =>
    match (make_rpc_call "getblock" [block_hash] config
        (env { method := "getblock", params := [block_hash] })).1 with
    | Except.error _ => none
    | Except.ok block_info => some block_info

/-- The calls issued at loop index `i`: the `getblockhash` call alone when it
fails, otherwise followed by the `getblock` call. -/
def indexCalls (config : RpcConfig) (env : RpcEnv) (block_count : Int) (i : Int) :
    List RpcCall :=
  match (make_rpc_call "getblockhash" [Json.num (wrapI64 (block_count - i))] config
      (env { method := "getblockhash", params := [Json.num (wrapI64 (block_count - i))] })).1 with
  | Except.error _ => [hashCallAt block_count i]
  | Except.ok block_hash =>
      [hashCallAt block_count i, { method := "getblock", params := [block_hash] }]

/-- Node reply: HTTP 200 whose body parses with the given `result` and no
`error`. -/
def replyOk (v : Json) : NodeReply :=
  NodeReply.reply 200 (BodyOutcome.text (Except.ok { result := some v, error := none }))

/-- Node reply: the POST itself fails at the transport level. -/
def replyConnFail : NodeReply := NodeReply.sendError "connection refused"

/-- Concrete configuration used for concrete runs. -/
def cfgW : RpcConfig := { url := "http://localhost:8332", user := "u", pass := "p" }

/-- Environment where every call succeeds: chain height 100, one hash string
per height, a fixed block-detail object for every `getblock`. -/
def envAllOkW : RpcEnv := fun c =>
  match c.method, c.params with
  | "getblockcount", _ => replyOk (Json.num 100)
  | "getblockhash", [Json.num n] => replyOk (Json.str ("hash" ++ toString n))
  | _, _ => replyOk (Json.obj [("height", Json.num 0)])

/-- Environment where exactly the fourth `getblockhash` (loop index 3, so
target height 97 under height 100) fails and everything else succeeds. -/
def envOneFailW : RpcEnv := fun c =>
  match c.method, c.params with
  | "getblockcount", _ => replyOk (Json.num 100)
  | "getblockhash", [Json.num n] =>
      if n = 97 then replyConnFail else replyOk (Json.str ("hash" ++ toString n))
  | _, _ => replyOk (Json.obj [("height", Json.num 0)])

/-- Environment where every call fails at the transport level. -/
def envConnFailW : RpcEnv := fun _ => replyConnFail

/-- Environment where every call is answered with HTTP status 500. -/
def envHttp500W : RpcEnv := fun _ =>
  NodeReply.reply 500 (BodyOutcome.readError "ignored")

/-- Environment where `getblockcount` succeeds with a non-integer JSON value
and every other call succeeds. -/
def envBadCountW : RpcEnv := fun c =>
  match c.method with
  | "getblockcount" => replyOk (Json.str "not a number")
  | _ => replyOk Json.null

/-- A syntactically valid, already-lowercase block hash. -/
def validHashW : String := String.mk (List.replicate 64 'a')

/-- A syntactically valid, uppercase block hash. -/
def upperHashW : String := String.mk (List.replicate 64 'A')

theorem get_latest_blocks_loop_eq (config : RpcConfig) (env : RpcEnv)
    (block_count : Int) (is : List Int) :
    ∀ (acc : List Json) (log : List RpcCall),
      get_latest_blocks_loop config env block_count is acc log =
        (acc ++ is.filterMap (fetchIndex config env block_count),
         log ++ is.flatMap (indexCalls config env block_count)) := by
  induction is with
  | nil => intro acc log; simp [get_latest_blocks_loop]
  | cons i rest ih =>
    intro acc log
    simp only [get_latest_blocks_loop]
    cases h1 : (make_rpc_call "getblockhash" [Json.num (wrapI64 (block_count - i))] config
        (env { method := "getblockhash",
               params := [Json.num (wrapI64 (block_count - i))] })).1 with
    | error e =>
      simp [ih, fetchIndex, indexCalls, hashCallAt, h1, List.filterMap_cons, List.flatMap_cons]
    | ok block_hash =>
      cases h2 : (make_rpc_call "getblock" [block_hash] config
          (env { method := "getblock", params := [block_hash] })).1 with
      | error e =>
        simp [ih, fetchIndex, indexCalls, hashCallAt, h1, h2, List.filterMap_cons,
          List.flatMap_cons]
      | ok block_info =>
        simp [ih, fetchIndex, indexCalls, hashCallAt, h1, h2, List.filterMap_cons,
          List.flatMap_cons]

theorem wrapI64_eq (x : Int) (h1 : -(2 ^ 63) ≤ x) (h2 : x < 2 ^ 63) : wrapI64 x = x := by
  have e1 : (2 : Int) ^ 63 = 9223372036854775808 := by norm_num
  have e2 : (2 : Int) ^ 64 = 18446744073709551616 := by norm_num
  unfold wrapI64
  rw [e1] at h1 h2 ⊢
  rw [e2]
  rw [Int.emod_eq_of_lt (by omega) (by omega)]
  omega

theorem fromValueI64_eq_some (v : Json) (n : Int) (h : fromValueI64 v = some n) :
    v = Json.num n ∧ -(2 ^ 63) ≤ n ∧ n < 2 ^ 63 := by
  cases v with
  | num m =>
    simp only [fromValueI64] at h
    by_cases hb : -(2 ^ 63) ≤ m ∧ m < 2 ^ 63
    · rw [if_pos hb] at h
      obtain rfl : m = n := Option.some.inj h
      exact ⟨rfl, hb⟩
    · rw [if_neg hb] at h
      cases h
  | null => simp [fromValueI64] at h
  | bool b => simp [fromValueI64] at h
  | str s => simp [fromValueI64] at h
  | arr xs => simp [fromValueI64] at h
  | obj fs => simp [fromValueI64] at h

theorem length_filterMap_add_none {α β : Type} (f : α → Option β) (l : List α) :
    (l.filterMap f).length + (l.filter (fun a => (f a).isNone)).length = l.length := by
  induction l with
  | nil => rfl
  | cons x xs ih =>
    cases hx : f x <;> simp [List.filterMap_cons, List.filter_cons, hx] <;> omega

theorem filterMap_filter_isSome {α β : Type} (f : α → Option β) (l : List α) :
    (l.filter (fun a => (f a).isSome)).filterMap f = l.filterMap f := by
  induction l with
  | nil => rfl
  | cons x xs ih =>
    cases hx : f x <;> simp [List.filter_cons, List.filterMap_cons, hx, ih]

theorem get_latest_blocks_count_error (config : RpcConfig) (env : RpcEnv) (e : String)
    (h0 : (make_rpc_call "getblockcount" [] config (env countCall)).1 = Except.error e) :
    get_latest_blocks config env =
      (HandlerOutcome.resp
        (HttpResponse.internalServerError "Failed to retrieve latest blocks"),
       [countCall]) := by
  unfold get_latest_blocks
  rw [h0]

theorem get_latest_blocks_count_nonint (config : RpcConfig) (env : RpcEnv) (bcv : Json)
    (h0 : (make_rpc_call "getblockcount" [] config (env countCall)).1 = Except.ok bcv)
    (hbc : fromValueI64 bcv = none) :
    get_latest_blocks config env = (HandlerOutcome.panicked, [countCall]) := by
  unfold get_latest_blocks
  rw [h0]
  dsimp only
  rw [hbc]

theorem get_latest_blocks_count_ok (config : RpcConfig) (env : RpcEnv) (bcv : Json) (bc : Int)
    (h0 : (make_rpc_call "getblockcount" [] config (env countCall)).1 = Except.ok bcv)
    (hbc : fromValueI64 bcv = some bc) :
    get_latest_blocks config env =
      (HandlerOutcome.resp (HttpResponse.ok (Json.arr
        (targetIndices.filterMap (fetchIndex config env bc)))),
       countCall :: targetIndices.flatMap (indexCalls config env bc)) := by
  unfold get_latest_blocks
  rw [h0]
  dsimp only
  rw [hbc]
  simp [get_latest_blocks_loop_eq]

theorem get_latest_blocks_ok_inv (config : RpcConfig) (env : RpcEnv) (l : List Json)
    (hl : (get_latest_blocks config env).1 =
      HandlerOutcome.resp (HttpResponse.ok (Json.arr l))) :
    ∃ bcv bc,
      (make_rpc_call "getblockcount" [] config (env countCall)).1 = Except.ok bcv ∧
      fromValueI64 bcv = some bc ∧
      l = targetIndices.filterMap (fetchIndex config env bc) := by
  cases h0 : (make_rpc_call "getblockcount" [] config (env countCall)).1 with
  | error e =>
    rw [get_latest_blocks_count_error config env e h0] at hl
    simp at hl
  | ok bcv =>
    cases hbc : fromValueI64 bcv with
    | none =>
      rw [get_latest_blocks_count_nonint config env bcv h0 hbc] at hl
      simp at hl
    | some bc =>
      rw [get_latest_blocks_count_ok config env bcv bc h0 hbc] at hl
      simp at hl
      exact ⟨bcv, bc, rfl, hbc, hl.symm⟩

theorem indexCalls_filter_hash_one (config : RpcConfig) (env : RpcEnv) (bc : Int) (i : Int) :
    (indexCalls config env bc i).filter (fun c => c.method == "getblockhash") =
      [hashCallAt bc i] := by
  unfold indexCalls
  split <;> rfl

theorem indexCalls_filter_hash (config : RpcConfig) (env : RpcEnv) (bc : Int) (is : List Int) :
    (is.flatMap (indexCalls config env bc)).filter (fun c => c.method == "getblockhash") =
      is.map (hashCallAt bc) := by
  induction is with
  | nil => rfl
  | cons i rest ih =>
    simp [List.flatMap_cons, List.filter_append, indexCalls_filter_hash_one, ih]

theorem targetIndices_pairwise : targetIndices.Pairwise (· < ·) := by
  unfold targetIndices
  refine List.Pairwise.map _ ?_ (List.pairwise_lt_range 10)
  intro a b h
  exact Int.ofNat_lt.mpr h

theorem map_hashCallAt_eq (bc : Int) (hpos : -(2 ^ 63) + 9 ≤ bc) (hlt : bc < 2 ^ 63) :
    targetIndices.map (hashCallAt bc) =
      (List.range 10).map (fun i =>
        { method := "getblockhash", params := [Json.num (bc - Int.ofNat i)] }) := by
  unfold targetIndices
  rw [List.map_map]
  apply List.map_congr_left
  intro a ha
  have hcast : Int.ofNat a = (a : Int) := rfl
  have ha10 : (a : Int) < 10 := by exact_mod_cast List.mem_range.mp ha
  have hnn : (0 : Int) ≤ (a : Int) := Int.natCast_nonneg a
  have e1 : (2 : Int) ^ 63 = 9223372036854775808 := by norm_num
  rw [e1] at hlt
  rw [e1] at hpos
  simp only [Function.comp_apply, hashCallAt]
  rw [wrapI64_eq (bc - Int.ofNat a) (by rw [e1, hcast]; omega) (by rw [e1, hcast]; omega)]

/-- C9: for every method name, parameter list, configuration and node
outcome, the RPC client constructs exactly one envelope with
`jsonrpc = "2.0"`, the fixed constant id `"1"`, the given method and the
parameters in exactly the given order, and performs exactly one HTTP POST
with Basic credentials — no retry under any outcome. -/
theorem rpc_client_single_post_envelope (method : String) (params : List Json)
    (config : RpcConfig) (reply : NodeReply) :
    (make_rpc_call method params config reply).2 =
      [{ url := config.url, basicUser := config.user, basicPass := config.pass,
         body := { jsonrpc := "2.0", id := "1", method := method, params := params } }] := by
  unfold make_rpc_call
  cases reply with
  | sendError e => rfl
  | reply status body =>
    dsimp only
    split
    · rfl
    · cases body with
      | readError e => rfl
      | text parsed => cases parsed <;> rfl

/-- C3 counterexample: when both `result` and `error` are absent, the
client's error message is the string `"Unknown error"`, which is not the
string `"unknown error"` stated by the claim. -/
theorem rpc_unknown_error_exact_string :
    handleParsedResponse { result := none, error := none } =
      Except.error "Unknown error" ∧ "Unknown error" ≠ "unknown error" :=
  ⟨rfl, by decide⟩

/-- C3 (amended): for every parsed RPC response, if `result` is present the
client returns it as success regardless of `error`; if `result` is absent
the client returns an error whose message is derived (by `Debug` rendering)
from the `error` field when present, and is the fixed string
`"Unknown error"` when both fields are absent. -/
theorem rpc_result_and_error_resolution (method : String) (params : List Json)
    (config : RpcConfig) (resp : RpcResponse) :
    ((make_rpc_call method params config
        (NodeReply.reply 200 (BodyOutcome.text (Except.ok resp)))).1 =
      handleParsedResponse resp) ∧
    (∀ v, resp.result = some v → handleParsedResponse resp = Except.ok v) ∧
    (∀ e, resp.result = none → resp.error = some e →
      handleParsedResponse resp = Except.error (jsonDebug e)) ∧
    (resp.result = none → resp.error = none →
      handleParsedResponse resp = Except.error "Unknown error") := by
  refine ⟨rfl, ?_, ?_, ?_⟩
  · intro v hv
    unfold handleParsedResponse
    rw [hv]
  · intro e hr he
    unfold handleParsedResponse
    rw [hr, he]
  · intro hr he
    unfold handleParsedResponse
    rw [hr, he]

/-- C3 witness: concrete parsed response with both fields present resolves
to the `result` value. -/
theorem rpc_result_and_error_resolution_w :
    handleParsedResponse { result := some (Json.num 7), error := some (Json.str "boom") } =
      Except.ok (Json.num 7) :=
  (rpc_result_and_error_resolution "getblock" [] cfgW
    { result := some (Json.num 7), error := some (Json.str "boom") }).2.1 (Json.num 7) rfl

/-- C2: for every string that does not match the block-identifier syntax,
`GET /block/...` returns HTTP 400 (body "Invalid block hash") and issues
zero RPC calls. -/
theorem block_handler_invalid_400_no_rpc (config : RpcConfig) (env : RpcEnv)
    (s : String) (hs : blockHashFromStr s = none) :
    get_block_info config env s = (HttpResponse.badRequest "Invalid block hash", []) := by
  unfold get_block_info
  rw [hs]

/-- C2 witness: the concrete non-hex string "nothex" yields 400 with no RPC
call. -/
theorem block_handler_invalid_400_no_rpc_w :
    blockHashFromStr "nothex" = none ∧
    get_block_info cfgW envAllOkW "nothex" =
      (HttpResponse.badRequest "Invalid block hash", []) :=
  ⟨rfl, block_handler_invalid_400_no_rpc cfgW envAllOkW "nothex" rfl⟩

/-- C10: for every syntactically valid block identifier, the parameter the
block handler passes to `getblock` is the canonical lowercase rendering of
the parsed hash (`BlockHash::from_str` re-serialized), not the raw path
string. -/
theorem block_param_canonical (config : RpcConfig) (env : RpcEnv) (s canon : String)
    (hs : blockHashFromStr s = some canon) :
    canon = lowerHex s ∧
    (get_block_info config env s).2 =
      [{ method := "getblock", params := [Json.str (lowerHex s)] }] := by
  have hcanon : canon = lowerHex s := by
    unfold blockHashFromStr at hs
    by_cases h : (s.length == 64 && s.data.all isHexChar) = true
    · rw [if_pos h] at hs
      exact (Option.some.inj hs).symm
    · rw [if_neg h] at hs
      cases hs
  subst hcanon
  refine ⟨rfl, ?_⟩
  unfold get_block_info
  rw [hs]

/-- C10 witness: the all-uppercase valid identifier reaches the node in
lowercase canonical form, which differs from the raw path string. -/
theorem block_param_canonical_w :
    (get_block_info cfgW envAllOkW upperHashW).2 =
      [{ method := "getblock", params := [Json.str (lowerHex upperHashW)] }] ∧
    lowerHex upperHashW ≠ upperHashW :=
  ⟨(block_param_canonical cfgW envAllOkW upperHashW (lowerHex upperHashW) rfl).2,
   by decide⟩

/-- C6: for every valid-syntax identifier and any two (possibly distinct)
RPC failures, the single-resource handlers return HTTP 500 with the same
fixed generic body — the response is a constant independent of the internal
error detail, so no internal error text appears in the HTTP response. -/
theorem handlers_generic_500_no_leak (config : RpcConfig) (env1 env2 : RpcEnv)
    (s canon : String) (hs : blockHashFromStr s = some canon)
    (e1 e2 : String)
    (h1 : (make_rpc_call "getblock" [Json.str canon] config
        (env1 { method := "getblock", params := [Json.str canon] })).1 = Except.error e1)
    (h2 : (make_rpc_call "getblock" [Json.str canon] config
        (env2 { method := "getblock", params := [Json.str canon] })).1 = Except.error e2) :
    (get_block_info config env1 s).1 =
      HttpResponse.internalServerError "Failed to retrieve block information" ∧
    (get_block_info config env1 s).1 = (get_block_info config env2 s).1 ∧
    (∀ (t : String) (envA : RpcEnv) (eA : String),
      (make_rpc_call "getrawtransaction" [Json.str t, Json.bool true] config
          (envA { method := "getrawtransaction",
                  params := [Json.str t, Json.bool true] })).1 = Except.error eA →
      (get_transaction_info config envA t).1 =
        HttpResponse.internalServerError "Failed to retrieve transaction information") := by
  have hb1 : (get_block_info config env1 s).1 =
      HttpResponse.internalServerError "Failed to retrieve block information" := by
    unfold get_block_info
    rw [hs]
    dsimp only
    rw [h1]
  have hb2 : (get_block_info config env2 s).1 =
      HttpResponse.internalServerError "Failed to retrieve block information" := by
    unfold get_block_info
    rw [hs]
    dsimp only
    rw [h2]
  refine ⟨hb1, hb1.trans hb2.symm, ?_⟩
  intro t envA eA hA
  unfold get_transaction_info
  dsimp only
  rw [hA]

/-- C6 witness: a transport failure and an HTTP-status failure (distinct
internal errors) both produce the identical fixed 500 body. -/
theorem handlers_generic_500_no_leak_w :
    "RPC connection error: connection refused" ≠ "RPC server error. Status: 500" ∧
    (get_block_info cfgW envConnFailW validHashW).1 =
      HttpResponse.internalServerError "Failed to retrieve block information" ∧
    (get_block_info cfgW envConnFailW validHashW).1 =
      (get_block_info cfgW envHttp500W validHashW).1 := by
  have h := handlers_generic_500_no_leak cfgW envConnFailW envHttp500W
    validHashW validHashW rfl _ _ rfl rfl
  exact ⟨by decide, h.1, h.2.1⟩

/-- C7: the transaction handler performs no identifier validation and never
returns 400: for every string it issues exactly one `getrawtransaction`
call with the identifier first and the boolean `true` second, answering 200
with the RPC result on success and a generic 500 on any RPC failure. -/
theorem tx_handler_no_validation (config : RpcConfig) (env : RpcEnv) (tx_id : String) :
    (get_transaction_info config env tx_id).2 =
      [{ method := "getrawtransaction", params := [Json.str tx_id, Json.bool true] }] ∧
    (∀ b, (get_transaction_info config env tx_id).1 ≠ HttpResponse.badRequest b) ∧
    (∀ v, (make_rpc_call "getrawtransaction" [Json.str tx_id, Json.bool true] config
        (env { method := "getrawtransaction",
               params := [Json.str tx_id, Json.bool true] })).1 = Except.ok v →
      (get_transaction_info config env tx_id).1 = HttpResponse.ok v) ∧
    (∀ e, (make_rpc_call "getrawtransaction" [Json.str tx_id, Json.bool true] config
        (env { method := "getrawtransaction",
               params := [Json.str tx_id, Json.bool true] })).1 = Except.error e →
      (get_transaction_info config env tx_id).1 =
        HttpResponse.internalServerError "Failed to retrieve transaction information") := by
  refine ⟨rfl, ?_, ?_, ?_⟩
  · intro b
    unfold get_transaction_info
    dsimp only
    cases h : (make_rpc_call "getrawtransaction" [Json.str tx_id, Json.bool true] config
        (env { method := "getrawtransaction",
               params := [Json.str tx_id, Json.bool true] })).1 with
    | ok v => simp
    | error e => simp
  · intro v h
    unfold get_transaction_info
    dsimp only
    rw [h]
  · intro e h
    unfold get_transaction_info
    dsimp only
    rw [h]

/-- C7 witness: concrete run returning the node's transaction object. -/
theorem tx_handler_no_validation_w :
    (get_transaction_info cfgW envAllOkW "sometx").1 =
      HttpResponse.ok (Json.obj [("height", Json.num 0)]) :=
  (tx_handler_no_validation cfgW envAllOkW "sometx").2.2.1
    (Json.obj [("height", Json.num 0)]) rfl

/-- C8: node block-detail JSON passes through unmodified: on the
single-block path a successful `getblock` result is delivered as the 200
body unchanged, and on the latest-blocks path every entry of the delivered
array is exactly the value some `getblock` call returned. -/
theorem block_json_passthrough (config : RpcConfig) (env : RpcEnv)
    (s canon : String) (hs : blockHashFromStr s = some canon) (v : Json)
    (hv : (make_rpc_call "getblock" [Json.str canon] config
        (env { method := "getblock", params := [Json.str canon] })).1 = Except.ok v) :
    (get_block_info config env s).1 = HttpResponse.ok v ∧
    (∀ (l : List Json), (get_latest_blocks config env).1 =
        HandlerOutcome.resp (HttpResponse.ok (Json.arr l)) →
      ∀ w ∈ l, ∃ bh, (make_rpc_call "getblock" [bh] config
        (env { method := "getblock", params := [bh] })).1 = Except.ok w) := by
  constructor
  · unfold get_block_info
    rw [hs]
    dsimp only
    rw [hv]
  · intro l hl w hw
    obtain ⟨bcv, bc, h0, hbc, hleq⟩ := get_latest_blocks_ok_inv config env l hl
    subst hleq
    rw [List.mem_filterMap] at hw
    obtain ⟨i, hi, hfi⟩ := hw
    unfold fetchIndex at hfi
    cases h1 : (make_rpc_call "getblockhash" [Json.num (wrapI64 (bc - i))] config
        (env { method := "getblockhash",
               params := [Json.num (wrapI64 (bc - i))] })).1 with
    | error e =>
      rw [h1] at hfi
      cases hfi
    | ok bh =>
      simp only [h1] at hfi
      cases h2 : (make_rpc_call "getblock" [bh] config
          (env { method := "getblock", params := [bh] })).1 with
      | error e =>
        rw [h2] at hfi
        cases hfi
      | ok bi =>
        simp only [h2] at hfi
        obtain rfl : bi = w := Option.some.inj hfi
        exact ⟨bh, h2⟩

/-- C8 witness: concrete single-block pass-through. -/
theorem block_json_passthrough_w :
    (get_block_info cfgW envAllOkW validHashW).1 =
      HttpResponse.ok (Json.obj [("height", Json.num 0)]) :=
  (block_json_passthrough cfgW envAllOkW validHashW validHashW rfl
    (Json.obj [("height", Json.num 0)]) rfl).1

/-- C1 counterexample: an RPC outcome sequence on which the initial
`getblockcount` call succeeds (returning a JSON string) yet the handler
panics at the `.unwrap()` on `serde_json::from_value::<i64>` instead of
completing with HTTP 200 and a JSON array. -/
theorem latest_blocks_nonint_count_panics :
    (make_rpc_call "getblockcount" [] cfgW (envBadCountW countCall)).1 =
      Except.ok (Json.str "not a number") ∧
    (get_latest_blocks cfgW envBadCountW).1 = HandlerOutcome.panicked ∧
    HandlerOutcome.panicked ≠
      HandlerOutcome.resp (HttpResponse.ok (Json.arr [])) :=
  ⟨rfl, rfl, by simp⟩

/-- C1 (amended): `GET /latest_blocks` returns HTTP 500 (with the fixed
body) exactly when the initial `getblockcount` call fails, and on that path
only the `getblockcount` call is issued, so the result array is never
constructed; when the first call succeeds with a JSON value deserializable
as an `i64` the handler returns HTTP 200 with a JSON array; when it
succeeds with a non-`i64` JSON value the handler panics instead of
completing. -/
theorem latest_blocks_500_iff_count_failure (config : RpcConfig) (env : RpcEnv) :
    ((∃ e, (make_rpc_call "getblockcount" [] config (env countCall)).1 = Except.error e) ↔
      (get_latest_blocks config env).1 =
        HandlerOutcome.resp
          (HttpResponse.internalServerError "Failed to retrieve latest blocks")) ∧
    ((∃ e, (make_rpc_call "getblockcount" [] config (env countCall)).1 = Except.error e) →
      (get_latest_blocks config env).2 = [countCall]) ∧
    (∀ bcv bc, (make_rpc_call "getblockcount" [] config (env countCall)).1 = Except.ok bcv →
      fromValueI64 bcv = some bc →
      ∃ l, (get_latest_blocks config env).1 =
        HandlerOutcome.resp (HttpResponse.ok (Json.arr l))) ∧
    (∀ bcv, (make_rpc_call "getblockcount" [] config (env countCall)).1 = Except.ok bcv →
      fromValueI64 bcv = none →
      (get_latest_blocks config env).1 = HandlerOutcome.panicked) := by
  refine ⟨⟨?_, ?_⟩, ?_, ?_, ?_⟩
  · rintro ⟨e, he⟩
    rw [get_latest_blocks_count_error config env e he]
  · intro hresp
    cases h0 : (make_rpc_call "getblockcount" [] config (env countCall)).1 with
    | error e => exact ⟨e, rfl⟩
    | ok bcv =>
      exfalso
      cases hbc : fromValueI64 bcv with
      | none =>
        rw [get_latest_blocks_count_nonint config env bcv h0 hbc] at hresp
        simp at hresp
      | some bc =>
        rw [get_latest_blocks_count_ok config env bcv bc h0 hbc] at hresp
        simp at hresp
  · rintro ⟨e, he⟩
    rw [get_latest_blocks_count_error config env e he]
  · intro bcv bc h0 hbc
    exact ⟨targetIndices.filterMap (fetchIndex config env bc),
      by rw [get_latest_blocks_count_ok config env bcv bc h0 hbc]⟩
  · intro bcv h0 hbc
    rw [get_latest_blocks_count_nonint config env bcv h0 hbc]

/-- C1 witness: concrete failing `getblockcount` yields the 500 response
with only the one issued call. -/
theorem latest_blocks_500_iff_count_failure_w :
    (get_latest_blocks cfgW envConnFailW).1 =
      HandlerOutcome.resp
        (HttpResponse.internalServerError "Failed to retrieve latest blocks") ∧
    (get_latest_blocks cfgW envConnFailW).2 = [countCall] := by
  have h := latest_blocks_500_iff_count_failure cfgW envConnFailW
  exact ⟨h.1.mp ⟨"RPC connection error: " ++ "connection refused", rfl⟩,
         h.2.1 ⟨"RPC connection error: " ++ "connection refused", rfl⟩⟩

/-- C4: after a successful `getblockcount` returning an i64 height `bc`
whose window does not underflow i64 (all real chain heights qualify), the
aggregator attempts exactly the ten indices 0..9 in
strictly increasing order with target height `bc - i`; a per-index
`getblockhash`/`getblock` failure adds no entry and is not surfaced (the
response is still a 200 array of the remaining fetches, in index order);
if exactly one of the ten per-index fetches fails the array has exactly 9
entries. -/
theorem latest_blocks_ten_indices_skip (config : RpcConfig) (env : RpcEnv)
    (bcv : Json) (bc : Int)
    (h0 : (make_rpc_call "getblockcount" [] config (env countCall)).1 = Except.ok bcv)
    (hbc : fromValueI64 bcv = some bc) (hpos : -(2 ^ 63) + 9 ≤ bc) :
    ((get_latest_blocks config env).2).filter (fun c => c.method == "getblockhash") =
      (List.range 10).map (fun i =>
        { method := "getblockhash", params := [Json.num (bc - Int.ofNat i)] }) ∧
    (get_latest_blocks config env).1 =
      HandlerOutcome.resp (HttpResponse.ok (Json.arr
        (targetIndices.filterMap (fetchIndex config env bc)))) ∧
    ((targetIndices.filter (fun i => (fetchIndex config env bc i).isNone)).length = 1 →
      (targetIndices.filterMap (fetchIndex config env bc)).length = 9) := by
  have hlt : bc < 2 ^ 63 := (fromValueI64_eq_some bcv bc hbc).2.2
  have heq := get_latest_blocks_count_ok config env bcv bc h0 hbc
  refine ⟨?_, ?_, ?_⟩
  · rw [heq]
    dsimp only
    show (targetIndices.flatMap (indexCalls config env bc)).filter
        (fun c => c.method == "getblockhash") = _
    rw [indexCalls_filter_hash, map_hashCallAt_eq bc hpos hlt]
  · rw [heq]
  · intro hone
    have h10 := length_filterMap_add_none (fetchIndex config env bc) targetIndices
    have hlen : targetIndices.length = 10 := rfl
    omega

/-- C4 witness: under the environment where exactly the fourth
`getblockhash` fails, exactly one per-index fetch fails and the array has 9
entries. -/
theorem latest_blocks_ten_indices_skip_w :
    (targetIndices.filter (fun i => (fetchIndex cfgW envOneFailW 100 i).isNone)).length = 1 ∧
    (targetIndices.filterMap (fetchIndex cfgW envOneFailW 100)).length = 9 := by
  have h := latest_blocks_ten_indices_skip cfgW envOneFailW (Json.num 100) 100
    rfl rfl (by norm_num)
  exact ⟨rfl, h.2.2 rfl⟩

/-- C5: every successful `GET /latest_blocks` response is an array of
length at most 10 whose entries are the per-index fetch results taken in
increasing index order, so the corresponding target heights `bc - i` are
strictly decreasing (tip downward) with no duplicates. -/
theorem latest_blocks_window_invariant (config : RpcConfig) (env : RpcEnv) (l : List Json)
    (hl : (get_latest_blocks config env).1 =
      HandlerOutcome.resp (HttpResponse.ok (Json.arr l))) :
    l.length ≤ 10 ∧
    ∃ bcv bc,
      (make_rpc_call "getblockcount" [] config (env countCall)).1 = Except.ok bcv ∧
      fromValueI64 bcv = some bc ∧
      l = (targetIndices.filter (fun i => (fetchIndex config env bc i).isSome)).filterMap
            (fetchIndex config env bc) ∧
      ((targetIndices.filter (fun i => (fetchIndex config env bc i).isSome)).map
          (fun i => bc - i)).Pairwise (· > ·) ∧
      ((targetIndices.filter (fun i => (fetchIndex config env bc i).isSome)).map
          (fun i => bc - i)).Nodup := by
  obtain ⟨bcv, bc, h0, hbc, hleq⟩ := get_latest_blocks_ok_inv config env l hl
  have hpair : (targetIndices.filter
      (fun i => (fetchIndex config env bc i).isSome)).Pairwise (· < ·) :=
    List.Pairwise.filter _ targetIndices_pairwise
  have hgt : ((targetIndices.filter (fun i => (fetchIndex config env bc i).isSome)).map
      (fun i => bc - i)).Pairwise (· > ·) := by
    refine List.Pairwise.map _ ?_ hpair
    intro a b hab
    simp only [gt_iff_lt]
    omega
  refine ⟨?_, bcv, bc, h0, hbc, ?_, hgt, ?_⟩
  · rw [hleq]
    calc (targetIndices.filterMap (fetchIndex config env bc)).length
        ≤ targetIndices.length := List.length_filterMap_le _ _
      _ = 10 := rfl
  · rw [hleq, filterMap_filter_isSome]
  · exact hgt.imp (fun hab => ne_of_gt hab)

/-- C5 witness: a concrete all-successful run has length 10 ≤ 10. -/
theorem latest_blocks_window_invariant_w :
    (List.replicate 10 (Json.obj [("height", Json.num 0)])).length ≤ 10 :=
  (latest_blocks_window_invariant cfgW envAllOkW
    (List.replicate 10 (Json.obj [("height", Json.num 0)])) rfl).1
